import Mathlib

/-!
Shallow embedding of the flipper quiz application: the document-store
operations on rooms, participants, bans, questions, answers and game
results (src/unnamed/part_000), the drawing surface's undo history
(DrawingCanvas in src/src/app/settings/page.tsx), and the broadcast
page's recolor transform (src/src/app/room/[id]/broadcast/page.tsx),
together with theorems settling the specification's claims about them.
Remote documents become lists in a `Store` record, server timestamps a
`now` counter, generated document ids a `nextId` counter, and the blob
store an `upload` oracle returning the fetch URL or a failure.
-/

namespace Flipper

/-! ## Data model (src/unnamed/part_000, Types) -/

/-- Room lifecycle status. The source's status literal `'open'` is a Lean
keyword, so that status is called `opened` here. -/
inductive RoomStatus
  | waiting
  | questioning
  | opened
  | ended
  deriving DecidableEq, Repr

structure Room where
  id : Nat
  hostId : String
  roomCode : List Char
  status : RoomStatus
  currentQuestionId : Option Nat
  maxParticipants : Nat
  createdAt : Nat
  deriving DecidableEq, Repr

inductive ParticipantStatus
  | pending
  | approved
  | rejected
  deriving DecidableEq, Repr

structure RoomParticipant where
  id : Nat
  roomId : Nat
  odId : String
  displayName : String
  photoURL : Option String
  status : ParticipantStatus
  joinedAt : Nat
  deriving DecidableEq, Repr

structure BannedUser where
  odId : String
  displayName : String
  photoURL : Option String
  bannedAt : Nat
  deriving DecidableEq, Repr

structure Question where
  id : Nat
  roomId : Nat
  text : String
  imageURL : Option String
  createdAt : Nat
  deriving DecidableEq, Repr

structure Answer where
  id : Nat
  questionId : Nat
  odId : String
  displayName : String
  canvasData : String
  isCorrect : Bool
  isRevealed : Bool
  updatedAt : Nat
  deriving DecidableEq, Repr

structure GameResultAnswer where
  odId : String
  displayName : String
  photoURL : Option String
  imageURL : String
  isCorrect : Bool
  deriving DecidableEq, Repr

structure GameResult where
  id : Nat
  roomId : Nat
  roomCode : List Char
  hostId : String
  questionText : String
  questionImageURL : Option String
  answers : List GameResultAnswer
  createdAt : Nat
  deriving DecidableEq, Repr

/-- The persistent state one room's operations touch: the room document,
its participants, bannedUsers, questions and answers subcollections, and
the top-level gameResults collection. `nextId` supplies fresh document
ids, `now` the server timestamp. -/
structure Store where
  room : Room
  participants : List RoomParticipant
  bannedUsers : List BannedUser
  questions : List Question
  answers : List Answer
  gameResults : List GameResult
  nextId : Nat
  now : Nat
  deriving DecidableEq, Repr

/-! ## Room functions (src/unnamed/part_000 lines 74-157, 499-503) -/

/-- The alphabet of `generateRoomCode` (line 76). -/
def roomCodeChars : List Char := "ABCDEFGHJKLMNPQRSTUVWXYZ23456789".toList

/-- Six draws of `chars.charAt(Math.floor(Math.random() * chars.length))`
(lines 75-82); each draw is an index below the alphabet's length, passed
in as the random oracle `picks`. -/
def generateRoomCode (picks : Fin 6 → Fin 32) : List Char :=
  (List.finRange 6).map fun i => roomCodeChars.getD (picks i).val 'A'

/-- createRoom (lines 85-99): a fresh room document in status 'waiting'
with a generated code. `id` and `now` stand for the fresh document id and
the server timestamp. -/
def createRoom (hostId : String) (maxParticipants : Nat) (picks : Fin 6 → Fin 32)
    (id now : Nat) : Room :=
  { id := id, hostId := hostId, roomCode := generateRoomCode picks,
    status := RoomStatus.waiting, currentQuestionId := none,
    maxParticipants := maxParticipants, createdAt := now }

/-- The uppercasing `roomCode.toUpperCase()` applies to a code (line 103). -/
def toUpperCode (code : List Char) : List Char := code.map Char.toUpper

/-- getRoomByCode (lines 101-110): equality query against the uppercased
argument; the first matching document, if any. -/
def getRoomByCode (rooms : List Room) (roomCode : List Char) : Option Room :=
  rooms.find? fun r => r.roomCode == toUpperCode roomCode

/-- updateRoomStatus (lines 119-122). -/
def updateRoomStatus (s : Store) (status : RoomStatus) : Store :=
  { s with room := { s.room with status := status } }

/-- resetRoomToWaiting (lines 124-130). -/
def resetRoomToWaiting (s : Store) : Store :=
  { s with room := { s.room with status := RoomStatus.waiting, currentQuestionId := none } }

/-- endRoom (lines 154-157). -/
def endRoom (s : Store) : Store :=
  { s with room := { s.room with status := RoomStatus.ended } }

/-- openAnswers (lines 500-503). -/
def openAnswers (s : Store) : Store :=
  { s with room := { s.room with status := RoomStatus.opened } }

/-- MAX_PARTICIPANTS (line 133). -/
def MAX_PARTICIPANTS : Nat := 15

/-- isUserBanned (lines 144-152): whether any bannedUsers document of the
room carries this odId. -/
def isUserBanned (s : Store) (odId : String) : Bool :=
  s.bannedUsers.any fun b => b.odId == odId

/-- The join capacity `roomData?.maxParticipants || MAX_PARTICIPANTS`
(line 218): a zero (falsy) stored maximum falls back to the default. -/
def roomMaxParticipants (s : Store) : Nat :=
  if s.room.maxParticipants = 0 then MAX_PARTICIPANTS else s.room.maxParticipants

inductive JoinError
  | banned
  | roomFull
  deriving DecidableEq, Repr

/-- requestJoinRoom (lines 184-235): reject a banned identity; return an
existing participant document unchanged; reject when the participant
count has reached the capacity; otherwise add an approved participant.
The returned store is the state after the call (unchanged on error). -/
def requestJoinRoom (s : Store) (odId displayName : String) (photoURL : Option String) :
    Store × Except JoinError RoomParticipant :=
  if isUserBanned s odId then
    (s, Except.error JoinError.banned)
  else
    match s.participants.find? (fun p => p.odId == odId) with
    | some p => (s, Except.ok p)
    | none =>
      if roomMaxParticipants s ≤ s.participants.length then
        (s, Except.error JoinError.roomFull)
      else
        let p : RoomParticipant :=
          { id := s.nextId, roomId := s.room.id, odId := odId,
            displayName := displayName, photoURL := photoURL,
            status := ParticipantStatus.approved, joinedAt := s.now }
        ({ s with participants := s.participants ++ [p],
                  nextId := s.nextId + 1, now := s.now + 1 },
         Except.ok p)

/-- kickParticipant (lines 238-257): add a bannedUsers document for the
identity, then delete the participant document with that id. -/
def kickParticipant (s : Store) (participantId : Nat) (odId displayName : String)
    (photoURL : Option String) : Store :=
  { s with
    bannedUsers := s.bannedUsers ++
      [{ odId := odId, displayName := displayName, photoURL := photoURL, bannedAt := s.now }],
    participants := s.participants.filter (fun p => p.id != participantId),
    now := s.now + 1 }

/-- unbanUser (lines 260-271): delete every bannedUsers document carrying
this odId. -/
def unbanUser (s : Store) (odId : String) : Store :=
  { s with bannedUsers := s.bannedUsers.filter (fun b => b.odId != odId) }

/-! ## Question and answer functions (src/unnamed/part_000 lines 336-497) -/

/-- createQuestion (lines 337-367): add a question document, then set it
as the room's current question and the room status to 'questioning'.
`imageURL` stands for the uploaded image's fetch URL, if any. -/
def createQuestion (s : Store) (text : String) (imageURL : Option String) :
    Store × Question :=
  let q : Question :=
    { id := s.nextId, roomId := s.room.id, text := text, imageURL := imageURL,
      createdAt := s.now }
  let room' : Room :=
    { s.room with currentQuestionId := some q.id, status := RoomStatus.questioning }
  ({ s with questions := s.questions ++ [q], room := room',
            nextId := s.nextId + 1, now := s.now + 1 },
   q)

/-- The per-document update of submitAnswer's update branch (lines
404-413): the document with the existing answer's id gets the new
canvasData and timestamp; every other document is untouched. -/
def applyCanvasUpdate (targetId : Nat) (canvasData : String) (now : Nat)
    (a : Answer) : Answer :=
  if a.id == targetId then { a with canvasData := canvasData, updatedAt := now } else a

/-- submitAnswer (lines 388-428): look for an answer with this questionId
and odId; update the first match in place, else create a new answer with
isCorrect and isRevealed false. Returns the state and the written
document. -/
def submitAnswer (s : Store) (questionId : Nat) (odId displayName canvasData : String) :
    Store × Answer :=
  match s.answers.find? (fun a => a.questionId == questionId && a.odId == odId) with
  | some existing =>
    ({ s with answers := s.answers.map (applyCanvasUpdate existing.id canvasData s.now),
              now := s.now + 1 },
     { existing with canvasData := canvasData, updatedAt := s.now })
  | none =>
    let a : Answer :=
      { id := s.nextId, questionId := questionId, odId := odId,
        displayName := displayName, canvasData := canvasData,
        isCorrect := false, isRevealed := false, updatedAt := s.now }
    ({ s with answers := s.answers ++ [a], nextId := s.nextId + 1, now := s.now + 1 },
     a)

/-- One submitAnswer call's arguments. -/
structure SubmitInput where
  questionId : Nat
  odId : String
  displayName : String
  canvasData : String
  deriving DecidableEq, Repr

/-- A sequence of submitAnswer calls, applied in order. -/
def runSubmits (s : Store) : List SubmitInput → Store
  | [] => s
  | i :: rest =>
    runSubmits (submitAnswer s i.questionId i.odId i.displayName i.canvasData).1 rest

/-- At most one answer document per (questionId, odId) pair. -/
def answersUniquePerKey (l : List Answer) : Prop :=
  l.Pairwise fun a b => ¬ (a.questionId = b.questionId ∧ a.odId = b.odId)

/-- The six answer fields submitAnswer's update branch never writes (all
but canvasData and updatedAt). -/
def answerKey (a : Answer) : Nat × Nat × String × String × Bool × Bool :=
  (a.id, a.questionId, a.odId, a.displayName, a.isCorrect, a.isRevealed)

/-! ## Game result snapshot (src/unnamed/part_000 lines 525-580 and
handleOpen in src/src/app/room/[id]/broadcast/page.tsx lines 372-392) -/

/-- One answer's history upload (lines 551-565): its drawing goes to the
blob store (`upload` returns the fetch URL, or none when the upload
fails) and the snapshot entry is built from the result. -/
def uploadAnswerImage (upload : String → Option String) (a : Answer) :
    Option GameResultAnswer :=
  (upload a.canvasData).map fun url =>
    { odId := a.odId, displayName := a.displayName, photoURL := none,
      imageURL := url, isCorrect := a.isCorrect }

/-- Promise.all over the uploads (lines 550-566): every drawing stored,
or the whole batch rejected as soon as one upload fails. -/
def uploadAll (upload : String → Option String) : List Answer → Option (List GameResultAnswer)
  | [] => some []
  | a :: rest =>
    match uploadAnswerImage upload a, uploadAll upload rest with
    | some sa, some rest' => some (sa :: rest')
    | _, _ => none

/-- The gameResults document saveGameResult writes (lines 568-576). -/
def snapshotOf (s : Store) (roomCode : List Char) (hostId : String) (question : Question)
    (savedAnswers : List GameResultAnswer) : GameResult :=
  { id := s.nextId, roomId := s.room.id, roomCode := roomCode, hostId := hostId,
    questionText := question.text, questionImageURL := question.imageURL,
    answers := savedAnswers, createdAt := s.now }

/-- Adding one gameResults document to the store. -/
def addGameResult (s : Store) (g : GameResult) : Store :=
  { s with gameResults := s.gameResults ++ [g], nextId := s.nextId + 1, now := s.now + 1 }

/-- saveGameResult (lines 539-580): upload every answer's drawing, then
add one gameResults document holding the snapshot. A failed upload
rejects before the document is written, leaving the store unchanged. -/
def saveGameResult (upload : String → Option String) (s : Store) (roomCode : List Char)
    (hostId : String) (question : Question) (answers : List Answer) :
    Option (Store × GameResult) :=
  (uploadAll upload answers).map fun savedAnswers =>
    let g : GameResult := snapshotOf s roomCode hostId question savedAnswers
    (addGameResult s g, g)

/-- handleOpen (host page lines 372-392): save the snapshot first, then
open the answers; a thrown error is caught, so on failure nothing else
runs and the store is left as it was. -/
def handleOpen (upload : String → Option String) (s : Store) (hostId : String)
    (question : Question) (answers : List Answer) : Store :=
  match saveGameResult upload s s.room.roomCode hostId question answers with
  | some (s1, _) => openAnswers s1
  | none => s

/-! ## Broadcast recolor transform
(src/src/app/room/[id]/broadcast/page.tsx lines 48-100, 155-162) -/

/-- One raster as the flat RGBA channel array `ImageData.data` exposes
it: four numbers per pixel. -/
structure Image where
  width : Nat
  height : Nat
  data : List Nat
  deriving DecidableEq, Repr

/-- The pixel loop of the broadcast page (lines 78-92): a pixel whose
three color channels are all below 128 gets white channels, its alpha
untouched; any other pixel keeps its channels and gets alpha 0. -/
def recolorData : List Nat → List Nat
  | r :: g :: b :: a :: rest =>
    if r < 128 ∧ g < 128 ∧ b < 128 then
      255 :: 255 :: 255 :: a :: recolorData rest
    else
      r :: g :: b :: 0 :: recolorData rest
  | rest => rest

/-- The temp canvas (lines 68-94) has the source image's dimensions and
holds the recolored data. -/
def recolorImage (img : Image) : Image :=
  { img with data := recolorData img.data }

/-- The broadcast answer canvas is declared with fixed attributes
`width={320} height={240}` (lines 155-162) and the recolored temp canvas
is drawn scaled onto it (line 95), so the output canvas size never
depends on the source image. -/
def broadcastOutputSize (_src : Image) : Nat × Nat := (320, 240)

/-! ## Drawing surface history
(DrawingCanvas in src/src/app/settings/page.tsx lines 149-327) -/

/-- A raster snapshot (one `ImageData` of the drawing canvas). -/
abbrev Raster := List Nat

/-- The drawing surface's mutable state: the snapshot history, the
current position in it, the canvas raster and the stroke-in-progress
flag. -/
structure CanvasState where
  history : List Raster
  historyIndex : Nat
  canvas : Raster
  isDrawing : Bool
  deriving DecidableEq, Repr

/-- The state after canvas initialisation (lines 180-200): the freshly
painted background is the sole history entry. -/
def initCanvas (bg : Raster) : CanvasState :=
  { history := [bg], historyIndex := 0, canvas := bg, isDrawing := false }

/-- saveToHistory (lines 202-217): drop the redo states, push the current
raster, and when the history exceeds 50 entries shift the oldest one
off. -/
def saveToHistory (s : CanvasState) : CanvasState :=
  let h := s.history.take (s.historyIndex + 1) ++ [s.canvas]
  let idx := h.length - 1
  if 50 < h.length then
    { s with history := h.drop 1, historyIndex := idx - 1 }
  else
    { s with history := h, historyIndex := idx }

/-- stopDrawing (lines 262-271): when a stroke is in progress, end it and
save a snapshot. -/
def stopDrawing (s : CanvasState) : CanvasState :=
  if s.isDrawing then saveToHistory { s with isDrawing := false } else s

/-- handleUndo (lines 273-283): when not at the bottom of the history,
step the index back and restore that snapshot onto the canvas. -/
def handleUndo (s : CanvasState) : CanvasState :=
  if s.historyIndex = 0 then s
  else
    { s with historyIndex := s.historyIndex - 1,
             canvas := s.history.getD (s.historyIndex - 1) [] }

/-- handleClear (lines 285-297): repaint the background and save a
snapshot. -/
def handleClear (bg : Raster) (s : CanvasState) : CanvasState :=
  saveToHistory { s with canvas := bg }

/-- The user-visible canvas events: a completed stroke leaving raster
`r` on the canvas (startDrawing, draw..., stopDrawing), the undo button,
and the clear button repainting background `bg`. -/
inductive CanvasOp
  | stroke (r : Raster)
  | undo
  | clear (bg : Raster)
  deriving DecidableEq, Repr

def applyOp : CanvasOp → CanvasState → CanvasState
  | CanvasOp.stroke r, s => stopDrawing { s with canvas := r, isDrawing := true }
  | CanvasOp.undo, s => handleUndo s
  | CanvasOp.clear bg, s => handleClear bg s

def runCanvas (s : CanvasState) : List CanvasOp → CanvasState
  | [] => s
  | op :: rest => runCanvas (applyOp op s) rest

/-- The live part of the snapshot history: the entries at or below the
current position (those above it are dead redo states no operation ever
reads, and the next save discards them). -/
def undoStack (s : CanvasState) : List Raster :=
  s.history.take (s.historyIndex + 1)

/-- The drawing surface's structural invariant: the position is inside
the history and the history is bounded by 50 snapshots. -/
def canvasInv (s : CanvasState) : Prop :=
  s.historyIndex < s.history.length ∧ s.history.length ≤ 50

/-! ## Concrete instances used by counterexamples and witnesses -/

def room0 : Room :=
  { id := 0, hostId := "host", roomCode := "ABC234".toList,
    status := RoomStatus.waiting, currentQuestionId := none,
    maxParticipants := 10, createdAt := 0 }

def store0 : Store :=
  { room := room0, participants := [], bannedUsers := [], questions := [],
    answers := [], gameResults := [], nextId := 1, now := 1 }

def participant0 : RoomParticipant :=
  { id := 10, roomId := 0, odId := "other", displayName := "O", photoURL := none,
    status := ParticipantStatus.approved, joinedAt := 0 }

def bannedUser0 : BannedUser :=
  { odId := "u", displayName := "U", photoURL := none, bannedAt := 0 }

/-- A store whose single-seat room is full and whose ban list holds "u". -/
def storeBannedFull : Store :=
  { store0 with room := { room0 with maxParticipants := 1 },
                participants := [participant0], bannedUsers := [bannedUser0] }

/-- A store whose single-seat room is full; nobody is banned. -/
def storeFull : Store :=
  { store0 with room := { room0 with maxParticipants := 1 },
                participants := [participant0] }

/-- A canvas state two snapshots deep, positioned at the top. -/
def canvasState0 : CanvasState :=
  { history := [[0], [1]], historyIndex := 1, canvas := [1], isDrawing := false }

def question0 : Question :=
  { id := 3, roomId := 0, text := "Q", imageURL := none, createdAt := 0 }

def answer0 : Answer :=
  { id := 4, questionId := 3, odId := "u", displayName := "U", canvasData := "img",
    isCorrect := false, isRevealed := false, updatedAt := 0 }

/-- A blob store on which every upload succeeds. -/
def uploadOk : String → Option String := fun d => some d

/-! ## C1: the broadcast recolor transform -/

/-- C1 counterexample: the transform does not force a dark pixel opaque.
The single-pixel raster [0, 0, 0, 0] has all three color channels
strictly below 128, yet its output pixel is [255, 255, 255, 0] — white
but still fully transparent, not opaque white (alpha 255): the loop never
writes the alpha channel of a dark pixel. -/
theorem C1_recolor_counterexample :
    (0 < 128 ∧ 0 < 128 ∧ 0 < 128) ∧
    recolorData [0, 0, 0, 0] = [255, 255, 255, 0] ∧
    ¬ recolorData [0, 0, 0, 0] = [255, 255, 255, 255] := by
  decide

/-- C1 (amended): a pixel with all three color channels strictly below
128 gets white color channels with its alpha preserved (opaque white
exactly when the source pixel was opaque); a pixel with any channel at or
above 128 keeps its channels and becomes fully transparent (alpha 0); the
recolored temp canvas keeps the source dimensions and the output canvas
size is always 320 x 240 regardless of the source image. -/
theorem C1_recolor (r g b a : Nat) (rest : List Nat) (src : Image) :
    (r < 128 ∧ g < 128 ∧ b < 128 →
      recolorData (r :: g :: b :: a :: rest) = 255 :: 255 :: 255 :: a :: recolorData rest) ∧
    (128 ≤ r ∨ 128 ≤ g ∨ 128 ≤ b →
      recolorData (r :: g :: b :: a :: rest) = r :: g :: b :: 0 :: recolorData rest) ∧
    (recolorImage src).width = src.width ∧
    (recolorImage src).height = src.height ∧
    broadcastOutputSize src = (320, 240) := by
  refine ⟨fun h => ?_, fun h => ?_, rfl, rfl, rfl⟩
  · simp [recolorData, h.1, h.2.1, h.2.2]
  · have h' : ¬ (r < 128 ∧ g < 128 ∧ b < 128) := by omega
    simp [recolorData, h']

/-- C1 witness: a dark pixel of alpha 0 at a concrete image. -/
theorem C1_recolor_witness :
    (0 < 128 ∧ 0 < 128 ∧ 0 < 128 →
      recolorData (0 :: 0 :: 0 :: 0 :: ([] : List Nat))
        = 255 :: 255 :: 255 :: 0 :: recolorData []) ∧
    (128 ≤ 0 ∨ 128 ≤ 0 ∨ 128 ≤ 0 →
      recolorData (0 :: 0 :: 0 :: 0 :: ([] : List Nat))
        = 0 :: 0 :: 0 :: 0 :: recolorData []) ∧
    (recolorImage (Image.mk 1 1 [0, 0, 0, 0])).width = (Image.mk 1 1 [0, 0, 0, 0]).width ∧
    (recolorImage (Image.mk 1 1 [0, 0, 0, 0])).height = (Image.mk 1 1 [0, 0, 0, 0]).height ∧
    broadcastOutputSize (Image.mk 1 1 [0, 0, 0, 0]) = (320, 240) :=
  C1_recolor 0 0 0 0 [] (Image.mk 1 1 [0, 0, 0, 0])

/-! ## C2: room status transitions -/

/-- C2 counterexample: 'ended' is not terminal for the store operations.
From a room created in status 'waiting', endRoom sets 'ended', and a
subsequent createQuestion call moves the status back to 'questioning'. -/
theorem C2_status_counterexample :
    store0.room.status = RoomStatus.waiting ∧
    (endRoom store0).room.status = RoomStatus.ended ∧
    (createQuestion (endRoom store0) "q" none).1.room.status = RoomStatus.questioning ∧
    RoomStatus.questioning ≠ RoomStatus.ended := by
  exact ⟨rfl, rfl, rfl, by decide⟩

/-- C2 (amended): the store operations write the room status
unconditionally — createQuestion sets 'questioning', openAnswers sets
'open', resetRoomToWaiting sets 'waiting' (clearing the current
question), endRoom sets 'ended' and updateRoomStatus sets its argument —
whatever the current status is; in particular a room in 'ended' can leave
that status, so no transition discipline is enforced at the store level
(the host UI, not the store, sequences waiting, questioning and open). -/
theorem C2_status_setters (s : Store) (text : String) (imageURL : Option String)
    (st : RoomStatus) :
    (createQuestion s text imageURL).1.room.status = RoomStatus.questioning ∧
    (openAnswers s).room.status = RoomStatus.opened ∧
    (resetRoomToWaiting s).room.status = RoomStatus.waiting ∧
    (resetRoomToWaiting s).room.currentQuestionId = none ∧
    (endRoom s).room.status = RoomStatus.ended ∧
    (updateRoomStatus s st).room.status = st := by
  exact ⟨rfl, rfl, rfl, rfl, rfl, rfl⟩

/-! ## C4 and C5: join requests -/

/-- C4: a banned identity's join request throws the ban rejection before
anything else is looked at, and no participant document is created (the
store comes back unchanged); since no assumption on the participant count
is needed, the rejection is the ban error even when the room is also at
capacity. -/
theorem C4_banned_join_rejected (s : Store) (od dn : String) (ph : Option String)
    (hban : isUserBanned s od = true) :
    (requestJoinRoom s od dn ph).2 = Except.error JoinError.banned ∧
    (requestJoinRoom s od dn ph).1 = s := by
  simp [requestJoinRoom, hban]

/-- C4 witness: in a store whose single-seat room is already full and
whose ban list holds "u", the join request by "u" is rejected as banned,
not as full, and no participant document is created. -/
theorem C4_banned_join_rejected_witness :
    roomMaxParticipants storeBannedFull ≤ storeBannedFull.participants.length ∧
    (requestJoinRoom storeBannedFull "u" "D" none).2 = Except.error JoinError.banned ∧
    (requestJoinRoom storeBannedFull "u" "D" none).1 = storeBannedFull :=
  ⟨by decide, C4_banned_join_rejected storeBannedFull "u" "D" none (by decide)⟩

/-- C5: when the active participant count has reached the room's
capacity, a join request by a not-yet-joined identity is rejected with
the room-full error and no participant document is created, while a
request by an already-joined identity gets its existing participant
document back unchanged — no new document and no error. -/
theorem C5_join_at_capacity (s : Store) (od dn : String) (ph : Option String)
    (hban : isUserBanned s od = false)
    (hcap : roomMaxParticipants s ≤ s.participants.length) :
    (s.participants.find? (fun p => p.odId == od) = none →
      (requestJoinRoom s od dn ph).2 = Except.error JoinError.roomFull ∧
      (requestJoinRoom s od dn ph).1 = s) ∧
    (∀ p, s.participants.find? (fun p => p.odId == od) = some p →
      (requestJoinRoom s od dn ph).2 = Except.ok p ∧
      (requestJoinRoom s od dn ph).1 = s) := by
  constructor
  · intro hnone
    simp [requestJoinRoom, hban, hnone, hcap]
  · intro p hp
    simp [requestJoinRoom, hban, hp]

/-- C5 witness: in a full single-seat room with no bans, the join request
by the fresh identity "new" is rejected as full and creates nothing,
and a resubmission by the seated identity would return its existing
document. -/
theorem C5_join_at_capacity_witness :
    (storeFull.participants.find? (fun p => p.odId == "new") = none →
      (requestJoinRoom storeFull "new" "N" none).2 = Except.error JoinError.roomFull ∧
      (requestJoinRoom storeFull "new" "N" none).1 = storeFull) ∧
    (∀ p, storeFull.participants.find? (fun p => p.odId == "new") = some p →
      (requestJoinRoom storeFull "new" "N" none).2 = Except.ok p ∧
      (requestJoinRoom storeFull "new" "N" none).1 = storeFull) :=
  C5_join_at_capacity storeFull "new" "N" none (by decide) (by decide)

/-! ## C3 and C9: answer submission -/

/-- Helper: a list in which no answer matches the pair makes the
submitAnswer lookup come back empty. -/
theorem find?_answer_eq_none {l : List Answer} {q : Nat} {od : String}
    (h : ∀ a ∈ l, ¬ (a.questionId = q ∧ a.odId = od)) :
    l.find? (fun a => a.questionId == q && a.odId == od) = none := by
  rw [List.find?_eq_none]
  intro a ha
  simpa using h a ha

/-- Helper: the update branch's per-document write touches only
canvasData and updatedAt, so the six other fields survive it. -/
theorem answerKey_applyCanvasUpdate (t : Nat) (cd : String) (n : Nat) (a : Answer) :
    answerKey (applyCanvasUpdate t cd n a) = answerKey a := by
  unfold applyCanvasUpdate
  split <;> rfl

/-- Helper: the per-document write preserves the questionId. -/
theorem applyCanvasUpdate_questionId (t : Nat) (cd : String) (n : Nat) (a : Answer) :
    (applyCanvasUpdate t cd n a).questionId = a.questionId := by
  unfold applyCanvasUpdate
  split <;> rfl

/-- Helper: the per-document write preserves the odId. -/
theorem applyCanvasUpdate_odId (t : Nat) (cd : String) (n : Nat) (a : Answer) :
    (applyCanvasUpdate t cd n a).odId = a.odId := by
  unfold applyCanvasUpdate
  split <;> rfl

/-- Helper: one submitAnswer call keeps the answers unique per
(questionId, odId) pair: the update branch rewrites documents in place
without touching the pair fields, and the create branch only fires when
no document carries the pair. -/
theorem submitAnswer_preserves_unique (s : Store) (q : Nat) (od dn cd : String)
    (h : answersUniquePerKey s.answers) :
    answersUniquePerKey (submitAnswer s q od dn cd).1.answers := by
  unfold submitAnswer
  cases hf : s.answers.find? (fun a => a.questionId == q && a.odId == od) with
  | some a0 =>
    dsimp only
    refine List.Pairwise.map _ ?_ h
    intro a b hab
    simpa [applyCanvasUpdate_questionId, applyCanvasUpdate_odId] using hab
  | none =>
    dsimp only
    rw [answersUniquePerKey, List.pairwise_append]
    refine ⟨h, List.pairwise_singleton _ _, ?_⟩
    intro x hx y hy
    rw [List.mem_singleton] at hy
    subst hy
    have hno := List.find?_eq_none.mp hf x hx
    simp only [Bool.and_eq_true, beq_iff_eq] at hno
    intro hcon
    exact hno ⟨hcon.1, hcon.2⟩

/-- Helper: any sequence of submitAnswer calls keeps the answers unique
per (questionId, odId) pair. -/
theorem runSubmits_unique (inputs : List SubmitInput) :
    ∀ s : Store, answersUniquePerKey s.answers →
      answersUniquePerKey (runSubmits s inputs).answers := by
  induction inputs with
  | nil => intro s hs; exact hs
  | cons i rest ih =>
    intro s hs
    exact ih _ (submitAnswer_preserves_unique s i.questionId i.odId i.displayName i.canvasData hs)

/-- C3: when no answer for the (questionId, odId) pair exists yet, the
first submitAnswer call creates one and the second call with the same
pair updates that very record — same document id, no new document — and
every sequence of submitAnswer calls from the empty store leaves at most
one answer per (question, identity) pair. -/
theorem C3_submit_upsert (s : Store) (q : Nat) (od dn1 cd1 dn2 cd2 : String)
    (h : ∀ a ∈ s.answers, ¬ (a.questionId = q ∧ a.odId = od)) :
    ((submitAnswer (submitAnswer s q od dn1 cd1).1 q od dn2 cd2).2.id
        = (submitAnswer s q od dn1 cd1).2.id ∧
      (submitAnswer (submitAnswer s q od dn1 cd1).1 q od dn2 cd2).1.answers.length
        = (submitAnswer s q od dn1 cd1).1.answers.length) ∧
    ∀ inputs : List SubmitInput,
      answersUniquePerKey (runSubmits store0 inputs).answers := by
  have hnone := find?_answer_eq_none h
  constructor
  · unfold submitAnswer
    rw [hnone]
    dsimp only
    rw [List.find?_append, hnone]
    simp
  · intro inputs
    exact runSubmits_unique inputs store0 List.Pairwise.nil

/-- C3 witness: in the empty store, a second submission for question 5 by
identity "u" lands on the document the first submission created. -/
theorem C3_submit_upsert_witness :
    ((submitAnswer (submitAnswer store0 5 "u" "n1" "c1").1 5 "u" "n2" "c2").2.id
        = (submitAnswer store0 5 "u" "n1" "c1").2.id ∧
      (submitAnswer (submitAnswer store0 5 "u" "n1" "c1").1 5 "u" "n2" "c2").1.answers.length
        = (submitAnswer store0 5 "u" "n1" "c1").1.answers.length) ∧
    ∀ inputs : List SubmitInput,
      answersUniquePerKey (runSubmits store0 inputs).answers :=
  C3_submit_upsert store0 5 "u" "n1" "c1" "n2" "c2" (by intro a ha; simp [store0] at ha)

/-- C9: a resubmission changes only the matched answer's canvasData and
updatedAt — every stored answer keeps its id, questionId, odId,
displayName, isCorrect and isRevealed — while a first submission appends
one new answer with isCorrect and isRevealed false; the returned document
carries the preserved (or fresh false) flags and the new canvasData. -/
theorem C9_submit_frame (s : Store) (q : Nat) (od dn cd : String) :
    (submitAnswer s q od dn cd).2.isCorrect
        = ((s.answers.find? (fun a => a.questionId == q && a.odId == od)).map
            Answer.isCorrect).getD false ∧
    (submitAnswer s q od dn cd).2.isRevealed
        = ((s.answers.find? (fun a => a.questionId == q && a.odId == od)).map
            Answer.isRevealed).getD false ∧
    (submitAnswer s q od dn cd).2.canvasData = cd ∧
    (submitAnswer s q od dn cd).1.answers.map answerKey
        = s.answers.map answerKey ++
          (if (s.answers.find? (fun a => a.questionId == q && a.odId == od)).isSome then
            []
          else
            [answerKey
              { id := s.nextId, questionId := q, odId := od, displayName := dn,
                canvasData := cd, isCorrect := false, isRevealed := false,
                updatedAt := s.now }]) := by
  unfold submitAnswer
  cases hf : s.answers.find? (fun a => a.questionId == q && a.odId == od) with
  | some a0 =>
    dsimp only
    refine ⟨rfl, rfl, rfl, ?_⟩
    rw [List.map_map, Option.isSome_some, if_pos rfl, List.append_nil]
    exact List.map_congr_left fun a _ => answerKey_applyCanvasUpdate a0.id cd s.now a
  | none =>
    dsimp only
    refine ⟨rfl, rfl, rfl, ?_⟩
    rw [List.map_append, Option.isSome_none]
    rfl

/-! ## C6: kick and unban -/

/-- C6: kickParticipant deletes the participant document with the given
id and makes isUserBanned return true for the kicked identity; a
subsequent unbanUser deletes every ban record for the identity, so
isUserBanned returns false, while the participants collection is left
exactly as it was (membership is not restored). -/
theorem C6_kick_then_unban (s t : Store) (pid : Nat) (od dn : String)
    (ph : Option String) :
    (∀ p ∈ (kickParticipant s pid od dn ph).participants, p.id ≠ pid) ∧
    isUserBanned (kickParticipant s pid od dn ph) od = true ∧
    isUserBanned (unbanUser t od) od = false ∧
    (unbanUser t od).participants = t.participants := by
  refine ⟨?_, ?_, ?_, rfl⟩
  · intro p hp
    have hm := (List.mem_filter.mp hp).2
    simpa using hm
  · simp [isUserBanned, kickParticipant]
  · simp only [isUserBanned, unbanUser]
    rw [List.any_eq_false]
    intro b hb
    have hm := (List.mem_filter.mp hb).2
    simp only [bne_iff_ne, ne_eq] at hm
    simp [hm]

/-- C6 witness: kicking the seated participant of the full store and
unbanning "u" from the store that bans them. -/
theorem C6_kick_then_unban_witness :
    (∀ p ∈ (kickParticipant storeFull 10 "u" "U" none).participants, p.id ≠ 10) ∧
    isUserBanned (kickParticipant storeFull 10 "u" "U" none) "u" = true ∧
    isUserBanned (unbanUser storeBannedFull "u") "u" = false ∧
    (unbanUser storeBannedFull "u").participants = storeBannedFull.participants :=
  C6_kick_then_unban storeFull storeBannedFull 10 "u" "U" none

/-! ## C7: closing a question snapshots history before opening -/

/-- Helper: a successful batch upload stores every answer's drawing — the
snapshot entries correspond one-to-one to the answers through the upload
oracle. -/
theorem uploadAll_eq_some {upload : String → Option String} :
    ∀ {l : List Answer} {l' : List GameResultAnswer},
      uploadAll upload l = some l' →
      List.Forall₂ (fun a sa => uploadAnswerImage upload a = some sa) l l' := by
  intro l
  induction l with
  | nil =>
    intro l' h
    simp only [uploadAll, Option.some.injEq] at h
    subst h
    exact List.Forall₂.nil
  | cons a rest ih =>
    intro l' h
    simp only [uploadAll] at h
    cases hu : uploadAnswerImage upload a with
    | none => rw [hu] at h; simp at h
    | some sa =>
      cases hr : uploadAll upload rest with
      | none => rw [hu, hr] at h; simp at h
      | some rest' =>
        rw [hu, hr] at h
        simp only [Option.some.injEq] at h
        subst h
        exact List.Forall₂.cons hu (ih hr)

/-- Helper: one failed upload rejects the whole batch before anything is
written. -/
theorem uploadAll_eq_none {upload : String → Option String} :
    ∀ {l : List Answer}, (∃ a ∈ l, upload a.canvasData = none) →
      uploadAll upload l = none := by
  intro l
  induction l with
  | nil => intro h; simp at h
  | cons a rest ih =>
    intro h
    obtain ⟨x, hx, hup⟩ := h
    rcases List.mem_cons.mp hx with rfl | hx'
    · have h1 : uploadAnswerImage upload x = none := by
        simp [uploadAnswerImage, hup]
      simp [uploadAll, h1]
    · have h2 : uploadAll upload rest = none := ih ⟨x, hx', hup⟩
      simp only [uploadAll, h2]
      cases uploadAnswerImage upload a <;> rfl

/-- C7: when every upload succeeds, handleOpen first writes one
gameResults document holding a snapshot entry for every current answer
(each drawing re-uploaded through the blob store) while the room status
is still untouched, and only then sets the status to 'open'; when any
history-image upload fails, the whole snapshot operation aborts — no
gameResults document is created, the room is not marked 'open', and the
store is exactly as before. -/
theorem C7_snapshot_before_open (upload : String → Option String) (s : Store)
    (hostId : String) (question : Question) (answers : List Answer) :
    (∀ saved, uploadAll upload answers = some saved →
      List.Forall₂ (fun a sa => uploadAnswerImage upload a = some sa) answers saved ∧
      ∃ s1 g, saveGameResult upload s s.room.roomCode hostId question answers
            = some (s1, g) ∧
        g.answers = saved ∧
        s1.room.status = s.room.status ∧
        s1.gameResults = s.gameResults ++ [g] ∧
        handleOpen upload s hostId question answers = openAnswers s1 ∧
        (openAnswers s1).room.status = RoomStatus.opened ∧
        (openAnswers s1).gameResults = s1.gameResults) ∧
    ((∃ a ∈ answers, upload a.canvasData = none) →
      handleOpen upload s hostId question answers = s) := by
  constructor
  · intro saved hs
    have hsave : saveGameResult upload s s.room.roomCode hostId question answers =
        some (addGameResult s (snapshotOf s s.room.roomCode hostId question saved),
              snapshotOf s s.room.roomCode hostId question saved) := by
      unfold saveGameResult
      rw [hs]
      rfl
    refine ⟨uploadAll_eq_some hs, _, _, hsave, rfl, rfl, rfl, ?_, rfl, rfl⟩
    unfold handleOpen
    rw [hsave]
  · intro hex
    have hn : uploadAll upload answers = none := uploadAll_eq_none hex
    unfold handleOpen saveGameResult
    rw [hn]
    rfl

/-- C7 witness: one answer in the base store, every upload succeeding. -/
theorem C7_snapshot_before_open_witness :
    (∀ saved, uploadAll uploadOk [answer0] = some saved →
      List.Forall₂ (fun a sa => uploadAnswerImage uploadOk a = some sa) [answer0] saved ∧
      ∃ s1 g, saveGameResult uploadOk store0 store0.room.roomCode "host" question0 [answer0]
            = some (s1, g) ∧
        g.answers = saved ∧
        s1.room.status = store0.room.status ∧
        s1.gameResults = store0.gameResults ++ [g] ∧
        handleOpen uploadOk store0 "host" question0 [answer0] = openAnswers s1 ∧
        (openAnswers s1).room.status = RoomStatus.opened ∧
        (openAnswers s1).gameResults = s1.gameResults) ∧
    ((∃ a ∈ [answer0], uploadOk a.canvasData = none) →
      handleOpen uploadOk store0 "host" question0 [answer0] = store0) :=
  C7_snapshot_before_open uploadOk store0 "host" question0 [answer0]

/-! ## C8: the drawing surface's undo history -/

/-- Helper: saveToHistory keeps the position inside the history and the
history within 50 snapshots. -/
theorem saveToHistory_inv (s : CanvasState) (h : s.history.length ≤ 50) :
    canvasInv (saveToHistory s) := by
  have ht := List.length_take (s.historyIndex + 1) s.history
  simp only [saveToHistory, canvasInv]
  split
  next hgt =>
    refine ⟨?_, ?_⟩ <;>
      simp only [List.length_drop, List.length_append, List.length_cons,
        List.length_nil] at hgt ⊢ <;>
      omega
  next hle =>
    refine ⟨?_, ?_⟩ <;>
      simp only [not_lt, List.length_append, List.length_cons,
        List.length_nil] at hle ⊢ <;>
      omega

/-- Helper: handleUndo keeps the invariant. -/
theorem handleUndo_inv (s : CanvasState) (h : canvasInv s) : canvasInv (handleUndo s) := by
  obtain ⟨h1, h2⟩ := h
  simp only [handleUndo, canvasInv]
  split
  · exact ⟨h1, h2⟩
  · exact ⟨by dsimp only; omega, by dsimp only; omega⟩

/-- Helper: every canvas event keeps the invariant. -/
theorem applyOp_inv (op : CanvasOp) (s : CanvasState) (h : canvasInv s) :
    canvasInv (applyOp op s) := by
  cases op with
  | stroke r =>
    simp only [applyOp, stopDrawing]
    split
    · exact saveToHistory_inv _ h.2
    · exact ⟨h.1, h.2⟩
  | undo => exact handleUndo_inv s h
  | clear bg => exact saveToHistory_inv _ h.2

/-- Helper: the invariant holds along any event sequence. -/
theorem runCanvas_inv (ops : List CanvasOp) :
    ∀ s : CanvasState, canvasInv s → canvasInv (runCanvas s ops) := by
  induction ops with
  | nil => intro s hs; exact hs
  | cons op rest ih => intro s hs; exact ih _ (applyOp_inv op s hs)

/-- Helper: the invariant holds of the freshly initialised canvas. -/
theorem initCanvas_inv (bg : Raster) : canvasInv (initCanvas bg) := by
  exact ⟨by simp [initCanvas], by simp [initCanvas]⟩

/-- Helper: right after a save, the top of the live history is the raster
that was saved. -/
theorem undoStack_saveToHistory (s : CanvasState) :
    (undoStack (saveToHistory s)).getLast? = some s.canvas := by
  simp only [saveToHistory, undoStack]
  split
  next hgt =>
    dsimp only
    rw [List.take_of_length_le (by
      simp only [List.length_drop, List.length_append, List.length_cons,
        List.length_nil] at hgt ⊢
      omega)]
    cases hcase : s.history.take (s.historyIndex + 1) with
    | nil => rw [hcase] at hgt; simp at hgt
    | cons x t' =>
      simp only [List.cons_append, List.drop_succ_cons, List.drop_zero]
      exact List.getLast?_concat _
  next hle =>
    dsimp only
    rw [List.take_of_length_le (by
      simp only [List.length_append, List.length_cons, List.length_nil]
      omega)]
    exact List.getLast?_concat _

/-- Helper: a completed stroke appends the stroke's raster as the new top
of the live history. -/
theorem undoStack_stopDrawing (s : CanvasState) (r : Raster) :
    (undoStack (stopDrawing { s with canvas := r, isDrawing := true })).getLast?
      = some r := by
  simpa [stopDrawing] using
    undoStack_saveToHistory { s with canvas := r, isDrawing := false }

/-- Helper: a clear appends the repainted background as the new top of
the live history. -/
theorem undoStack_handleClear (s : CanvasState) (bg : Raster) :
    (undoStack (handleClear bg s)).getLast? = some bg := by
  simpa [handleClear] using undoStack_saveToHistory { s with canvas := bg }

/-- Helper: away from the bottom of the history, undo pops the live
history and restores the raster that is then on top. -/
theorem undoStack_handleUndo (s : CanvasState) (hinv : canvasInv s)
    (hpos : 0 < s.historyIndex) :
    undoStack (handleUndo s) = (undoStack s).dropLast ∧
    (handleUndo s).canvas = (undoStack s).dropLast.getLast?.getD [] ∧
    (undoStack (handleUndo s)).length + 1 = (undoStack s).length := by
  obtain ⟨h1, _⟩ := hinv
  simp only [handleUndo, undoStack]
  rw [if_neg (by omega)]
  dsimp only
  have hsub : s.historyIndex - 1 + 1 = s.historyIndex := by omega
  rw [hsub]
  have hdrop : (s.history.take (s.historyIndex + 1)).dropLast
      = s.history.take s.historyIndex := by
    rw [List.dropLast_eq_take, List.length_take, List.take_take]
    congr 1
    omega
  refine ⟨hdrop.symm, ?_, ?_⟩
  · rw [hdrop, List.getD_eq_getElem?_getD, List.getLast?_eq_getElem?, List.length_take]
    have hmin : min s.historyIndex s.history.length = s.historyIndex := by omega
    rw [hmin, List.getElem?_take_of_lt (by omega)]
  · rw [List.length_take, List.length_take]
    omega

/-- C8: the undo history is a bounded stack — along any event sequence
from initialisation it never exceeds 50 raster snapshots — a completed
stroke and a clear each append the current raster as the new top of the
live history, and undo pops the live history and restores the snapshot
then on top as the canvas content. -/
theorem C8_undo_history (s : CanvasState) (r bg bg0 : Raster) (ops : List CanvasOp)
    (hinv : canvasInv s) :
    (runCanvas (initCanvas bg0) ops).history.length ≤ 50 ∧
    (undoStack (stopDrawing { s with canvas := r, isDrawing := true })).getLast?
      = some r ∧
    (undoStack (handleClear bg s)).getLast? = some bg ∧
    (0 < s.historyIndex →
      undoStack (handleUndo s) = (undoStack s).dropLast ∧
      (handleUndo s).canvas = (undoStack s).dropLast.getLast?.getD [] ∧
      (undoStack (handleUndo s)).length + 1 = (undoStack s).length) :=
  ⟨(runCanvas_inv ops (initCanvas bg0) (initCanvas_inv bg0)).2,
    undoStack_stopDrawing s r, undoStack_handleClear s bg,
    fun hpos => undoStack_handleUndo s hinv hpos⟩

/-- C8 witness: a concrete canvas two snapshots deep. -/
theorem C8_undo_history_witness :
    (runCanvas (initCanvas []) [CanvasOp.stroke [5], CanvasOp.undo]).history.length ≤ 50 ∧
    (undoStack (stopDrawing { canvasState0 with canvas := [5], isDrawing := true })).getLast?
      = some [5] ∧
    (undoStack (handleClear [7] canvasState0)).getLast? = some [7] ∧
    (0 < canvasState0.historyIndex →
      undoStack (handleUndo canvasState0) = (undoStack canvasState0).dropLast ∧
      (handleUndo canvasState0).canvas
        = (undoStack canvasState0).dropLast.getLast?.getD [] ∧
      (undoStack (handleUndo canvasState0)).length + 1
        = (undoStack canvasState0).length) :=
  C8_undo_history canvasState0 [5] [7] [] [CanvasOp.stroke [5], CanvasOp.undo]
    ⟨by decide, by decide⟩

/-! ## C10: room codes -/

/-- C10: every room createRoom builds has a code of exactly 6 characters,
each drawn from the 32-character alphabet ABCDEFGHJKLMNPQRSTUVWXYZ23456789
(the ambiguous I, O, 0 and 1 are excluded), and getRoomByCode uppercases
its argument before the equality query, so any two inputs with the same
uppercasing look up the same room. -/
theorem C10_room_code (hostId : String) (maxP : Nat) (picks : Fin 6 → Fin 32)
    (id now : Nat) (rooms : List Room) (c1 c2 : List Char) :
    (createRoom hostId maxP picks id now).roomCode.length = 6 ∧
    (∀ ch ∈ (createRoom hostId maxP picks id now).roomCode, ch ∈ roomCodeChars) ∧
    roomCodeChars.length = 32 ∧
    ('I' ∉ roomCodeChars ∧ 'O' ∉ roomCodeChars ∧ '0' ∉ roomCodeChars ∧ '1' ∉ roomCodeChars) ∧
    (toUpperCode c1 = toUpperCode c2 → getRoomByCode rooms c1 = getRoomByCode rooms c2) := by
  refine ⟨?_, ?_, by decide, by decide, fun h => ?_⟩
  · simp [createRoom, generateRoomCode]
  · intro ch hch
    simp only [createRoom, generateRoomCode, List.mem_map] at hch
    obtain ⟨i, _, rfl⟩ := hch
    have hlt : (picks i).val < roomCodeChars.length := by
      have h32 : roomCodeChars.length = 32 := by decide
      rw [h32]
      exact (picks i).isLt
    rw [List.getD_eq_getElem?_getD, List.getElem?_eq_getElem hlt]
    exact List.getElem_mem hlt
  · simp only [getRoomByCode, h]

/-- C10 witness: a room whose code draws the first alphabet character six
times, looked up with a lowercase and an uppercase input. -/
theorem C10_room_code_witness :
    (createRoom "h" 10 (fun _ => 0) 0 0).roomCode.length = 6 ∧
    (∀ ch ∈ (createRoom "h" 10 (fun _ => 0) 0 0).roomCode, ch ∈ roomCodeChars) ∧
    roomCodeChars.length = 32 ∧
    ('I' ∉ roomCodeChars ∧ 'O' ∉ roomCodeChars ∧ '0' ∉ roomCodeChars ∧ '1' ∉ roomCodeChars) ∧
    (toUpperCode ('a' :: []) = toUpperCode ('A' :: []) →
      getRoomByCode [] ('a' :: []) = getRoomByCode [] ('A' :: [])) :=
  C10_room_code "h" 10 (fun _ => 0) 0 0 [] ('a' :: []) ('A' :: [])

end Flipper
